import Mathlib

/-!
Verification of the IdorPlus IDOR scanner against its natural-language
specification.  The Go sources are shallowly embedded: strings are lists of
characters, machine integers are `Int`/`Nat` (with explicit wrap-around where
overflow can matter), Go `float64` arithmetic on integer lengths is rendered
with exact rational arithmetic, and the concurrency primitives are rendered as
explicit state-transition relations.
-/

namespace IdorPlus

/-! ## Character predicates (ASCII, as used by the Go regexes) -/

/-- Decimal digit, the RE2 class backslash-d (ASCII only). -/
def isDigitCh (c : Char) : Bool :=
  decide (48 ≤ c.toNat ∧ c.toNat ≤ 57)

/-- Whitespace, the RE2 Perl class backslash-s: tab, newline, form feed,
carriage return, space. -/
def isSpaceCh (c : Char) : Bool :=
  decide (c.toNat = 9 ∨ c.toNat = 10 ∨ c.toNat = 12 ∨ c.toNat = 13 ∨ c.toNat = 32)

/-- Hex digit, either case (accepted by google/uuid's `xtob`). -/
def isHexCh (c : Char) : Bool :=
  decide ((48 ≤ c.toNat ∧ c.toNat ≤ 57) ∨ (97 ≤ c.toNat ∧ c.toNat ≤ 102) ∨
    (65 ≤ c.toNat ∧ c.toNat ≤ 70))

/-- Lower-case hex digit, the class `[a-f0-9]` of the md5/sha1 regexes in
`IdorPlus/pkg/analyzer/identifier.go`. -/
def isLowerHexCh (c : Char) : Bool :=
  decide ((48 ≤ c.toNat ∧ c.toNat ≤ 57) ∨ (97 ≤ c.toNat ∧ c.toNat ≤ 102))

/-- Base64 alphabet `[A-Za-z0-9+/]` (padding `=` excluded). -/
def isB64Ch (c : Char) : Bool :=
  decide ((65 ≤ c.toNat ∧ c.toNat ≤ 90) ∨ (97 ≤ c.toNat ∧ c.toNat ≤ 122) ∨
    (48 ≤ c.toNat ∧ c.toNat ≤ 57) ∨ c.toNat = 43 ∨ c.toNat = 47)

/-- ASCII lower-casing, modelling the case folding `strings.EqualFold`
performs on the all-ASCII literal `urn:uuid:`. -/
def asciiLower (c : Char) : Char :=
  if 65 ≤ c.toNat ∧ c.toNat ≤ 90 then Char.ofNat (c.toNat + 32) else c

/-! ## IdentifierAnalyzer (IdorPlus/pkg/analyzer/identifier.go) -/

inductive IDType where
  | unknown
  | numeric
  | uuid
  | md5
  | sha1
  | base64
deriving DecidableEq, Repr

/-- The canonical 8-4-4-4-12 shape check of `uuid.Parse`: dashes at indices
8, 13, 18, 23 and hex digits at the other 32 indices of the first 36
characters (indices past 36, such as a trailing brace, are not inspected). -/
def canonUuidOk (s : List Char) : Bool :=
  (List.range 36).all fun i =>
    match s.get? i with
    | some c =>
      if i = 8 ∨ i = 13 ∨ i = 18 ∨ i = 23 then c == '-' else isHexCh c
    | none => false

/-- Success of `uuid.Parse` from github.com/google/uuid as called by
`DetectType`: it accepts the canonical 36-character form, the 45-character
`urn:uuid:`-prefixed form (prefix compared case-insensitively), the
38-character braced form (only the first character is stripped), and — the
decisive case here — any 32-character string of hex digits with no dashes. -/
def uuidParseOk (s : List Char) : Bool :=
  if s.length = 36 then canonUuidOk s
  else if s.length = 45 then
    ((s.take 9).map asciiLower == "urn:uuid:".toList) && canonUuidOk (s.drop 9)
  else if s.length = 38 then canonUuidOk (s.drop 1)
  else if s.length = 32 then s.all isHexCh
  else false

/-- Boolean match of the anchored Go regex `^[A-Za-z0-9+/]+={0,2}$`: a
non-empty run of base64 characters followed by at most two `=` signs. -/
def base64ShapeOk (s : List Char) : Bool :=
  let n := (s.reverse.takeWhile (fun c => c == '=')).length
  decide (n ≤ 2) && (let core := s.take (s.length - n);
    !core.isEmpty && core.all isB64Ch)

/-- `IdentifierAnalyzer.DetectType` from `IdorPlus/pkg/analyzer/identifier.go`.
The checks run in the source order: uuid (via `uuid.Parse`) first, then the
anchored regexes for numeric, md5, sha1 and base64 (the latter also requiring
length strictly greater than 4), else unknown. -/
def DetectType (s : List Char) : IDType :=
  if uuidParseOk s then .uuid
  else if !s.isEmpty && s.all isDigitCh then .numeric
  else if decide (s.length = 32) && s.all isLowerHexCh then .md5
  else if decide (s.length = 40) && s.all isLowerHexCh then .sha1
  else if base64ShapeOk s && decide (4 < s.length) then .base64
  else .unknown

/-! ## ResponseComparator (IdorPlus/pkg/analyzer/response.go) -/

/-- An HTTP response as the analyzer and detector observe it: a status code
and a body.  Only the status and the body bytes are ever consulted. -/
structure Response where
  status : Int
  body : List Char
deriving DecidableEq, Repr

structure ComparisonResult where
  statusMatch : Bool
  lengthDiff : Nat
  bodySimilarity : ℚ
deriving DecidableEq, Repr

/-- `ResponseComparator.Compare`.  `lengthDiff` is the absolute difference of
the body lengths; when the baseline body is non-empty the similarity is
`1 - lengthDiff / baselineLen` — the source applies no clamping, so the value
can be negative.  With an empty baseline it is 1 against an empty body and 0
otherwise.  The Go float64 arithmetic is rendered exactly over `ℚ`. -/
def Compare (baseline other : Response) : ComparisonResult :=
  let baselineLen := baseline.body.length
  let respLen := other.body.length
  let lengthDiff := ((baselineLen : Int) - (respLen : Int)).natAbs
  { statusMatch := decide (baseline.status = other.status)
    lengthDiff := lengthDiff
    bodySimilarity :=
      if 0 < baselineLen then 1 - (lengthDiff : ℚ) / (baselineLen : ℚ)
      else if respLen = 0 then 1 else 0 }

/-- The similarity the specification describes (section 4.3): the same value
but clamped through `min 1` before the subtraction.  Stated from the spec's
words, for comparison with `Compare`. -/
def specSimilarity (baseline other : Response) : ℚ :=
  let baselineLen := baseline.body.length
  let lengthDiff := ((baselineLen : Int) - (other.body.length : Int)).natAbs
  if 0 < baselineLen then 1 - min 1 ((lengthDiff : ℚ) / (baselineLen : ℚ))
  else if other.body.length = 0 then 1 else 0

/-! ## NumericGenerator (IdorPlus/pkg/generator/numeric.go) -/

/-- The fixed boundary payloads appended by the numeric generator. -/
def boundaryValues : List String :=
  ["0", "1", "-1", "999", "1000", "1001", "9999", "10000",
   "2147483647", "-2147483648"]

/-- `NumericGenerator.Generate`: the decimal strings for 1..count (empty when
`count ≤ 0`, matching the Go `for` loop), then the boundary values. -/
def NumericGenerator.Generate (count : Int) : List String :=
  ((List.range count.toNat).map (fun i => toString (i + 1))) ++ boundaryValues

/-! ## A small regex engine (Brzozowski derivatives)

Models the boolean question `regexp.MatchString` answers for the PII
patterns: does the pattern match some substring of the body?  The patterns
are unanchored, so a match is a matching prefix of some suffix. -/

inductive Regex where
  | fail
  | eps
  | cls (p : Char → Bool)
  | cat (a b : Regex)
  | alt (a b : Regex)
  | star (a : Regex)

/-- Does the regex accept the empty string? -/
def nullable : Regex → Bool
  | .fail => false
  | .eps => true
  | .cls _ => false
  | .cat a b => nullable a && nullable b
  | .alt a b => nullable a || nullable b
  | .star _ => true

/-- Smart union constructor (drops `fail` branches; semantics unchanged). -/
def rAlt : Regex → Regex → Regex
  | .fail, r => r
  | r, .fail => r
  | a, b => .alt a b

/-- Smart concatenation constructor (absorbs `fail`, drops `eps`). -/
def rCat : Regex → Regex → Regex
  | .fail, _ => .fail
  | _, .fail => .fail
  | .eps, r => r
  | r, .eps => r
  | a, b => .cat a b

/-- Brzozowski derivative with respect to one character. -/
def deriv : Regex → Char → Regex
  | .fail, _ => .fail
  | .eps, _ => .fail
  | .cls p, c => if p c then .eps else .fail
  | .cat a b, c =>
    if nullable a then rAlt (rCat (deriv a c) b) (deriv b c)
    else rCat (deriv a c) b
  | .alt a b, c => rAlt (deriv a c) (deriv b c)
  | .star a, c => rCat (deriv a c) (.star a)

/-- Does the regex match some (possibly empty) prefix of the string? -/
def matchesSomeStart : Regex → List Char → Bool
  | r, [] => nullable r
  | r, c :: cs => nullable r || matchesSomeStart (deriv r c) cs

/-- Does the regex match some substring (unanchored search)? -/
def containsMatch (r : Regex) : List Char → Bool
  | [] => nullable r
  | c :: cs => matchesSomeStart r (c :: cs) || containsMatch r cs

/-- Single literal character. -/
def chr (c : Char) : Regex := .cls (fun x => x == c)

/-- Literal string. -/
def lit (s : String) : Regex :=
  s.toList.foldr (fun c r => .cat (chr c) r) .eps

/-- One of the characters of `s`. -/
def oneOf (s : String) : Regex := .cls (fun c => s.toList.contains c)

/-- `r?` -/
def opt (r : Regex) : Regex := .alt .eps r

/-- `r+` -/
def plus (r : Regex) : Regex := .cat r (.star r)

/-- Exactly `n` copies of `r`. -/
def repN (r : Regex) : Nat → Regex
  | 0 => .eps
  | n + 1 => .cat r (repN r n)

/-- `r` repeated `n` or more times. -/
def atLeast (r : Regex) (n : Nat) : Regex := .cat (repN r n) (.star r)

/-- Between `lo` and `hi` copies of `r`. -/
def between (r : Regex) (lo hi : Nat) : Regex :=
  .cat (repN r lo) (repN (opt r) (hi - lo))

/-! ## PII patterns (pkg/detector/idor.go, NewIDORDetector) -/

def digitCls : Regex := .cls isDigitCh

/-- Separator class of the phone/credit-card patterns: a dash, a dot or a
whitespace character. -/
def sepCls : Regex := .cls (fun c => c == '-' || c == '.' || isSpaceCh c)

/-- Regex for email addresses. -/
def emailRegex : Regex :=
  .cat (plus (.cls (fun c => (isB64Ch c && !(c == '+') && !(c == '/')) ||
      c == '.' || c == '_' || c == '%' || c == '+' || c == '-')))
    (.cat (chr '@')
      (.cat (plus (.cls (fun c => (isB64Ch c && !(c == '+') && !(c == '/')) ||
          c == '.' || c == '-')))
        (.cat (chr '.') (atLeast (.cls (fun c =>
          decide ((65 ≤ c.toNat ∧ c.toNat ≤ 90) ∨ (97 ≤ c.toNat ∧ c.toNat ≤ 122)))) 2))))

/-- Regex for US phone numbers. -/
def phoneUsRegex : Regex :=
  .cat (opt (chr '(')) (.cat (repN digitCls 3) (.cat (opt (chr ')'))
    (.cat (opt sepCls) (.cat (repN digitCls 3)
      (.cat (opt sepCls) (repN digitCls 4))))))

/-- Regex for international phone numbers. -/
def phoneIntlRegex : Regex :=
  .cat (chr '+') (.cat (between digitCls 1 3) (.cat (opt sepCls)
    (.cat (between digitCls 1 4) (.cat (opt sepCls)
      (.cat (between digitCls 1 4) (.cat (opt sepCls) (between digitCls 1 9)))))))

/-- Regex for social security numbers. -/
def ssnRegex : Regex :=
  .cat (repN digitCls 3) (.cat (chr '-') (.cat (repN digitCls 2)
    (.cat (chr '-') (repN digitCls 4))))

/-- Regex for credit-card numbers. -/
def creditCardRegex : Regex :=
  .cat (repN digitCls 4) (.cat (opt (.cls (fun c => c == '-' || isSpaceCh c)))
    (.cat (repN digitCls 4) (.cat (opt (.cls (fun c => c == '-' || isSpaceCh c)))
      (.cat (repN digitCls 4) (.cat (opt (.cls (fun c => c == '-' || isSpaceCh c)))
        (repN digitCls 4))))))

/-- Word characters of the api-key and jwt patterns: `[a-zA-Z0-9_-]`. -/
def keyCh : Regex :=
  .cls (fun c => (isB64Ch c && !(c == '+') && !(c == '/')) || c == '_' || c == '-')

/-- Regex for api keys. -/
def apiKeyRegex : Regex :=
  .cat (.alt (.cat (lit "api") (.cat (opt (oneOf "_-")) (lit "key")))
      (.alt (lit "apikey") (lit "api_secret")))
    (.cat (plus (.cls (fun c => c == '"' || isSpaceCh c || c == ':' || c == '=')))
      (.cat (opt (.cls (fun c => c == '"' || c == '\'')))
        (.cat (atLeast keyCh 20) (opt (.cls (fun c => c == '"' || c == '\''))))))

/-- Regex for JSON web tokens. -/
def jwtRegex : Regex :=
  .cat (lit "eyJ") (.cat (.star keyCh) (.cat (chr '.')
    (.cat (lit "eyJ") (.cat (.star keyCh) (.cat (chr '.') (.star keyCh))))))

/-- Regex for passwords — present in the source's pattern map but absent from
the specification's list of eight. -/
def passwordRegex : Regex :=
  .cat (.alt (lit "password") (.alt (lit "passwd") (lit "pwd")))
    (.cat (plus (.cls (fun c => c == '"' || isSpaceCh c || c == ':' || c == '=')))
      (.cat (opt (.cls (fun c => c == '"' || c == '\'')))
        (.cat (atLeast (.cls (fun c => !(c == '"') && !(c == '\'') && !isSpaceCh c)) 4)
          (opt (.cls (fun c => c == '"' || c == '\''))))))

/-- Regex for PEM private-key headers. -/
def privateKeyRegex : Regex :=
  .cat (lit "-----BEGIN ")
    (.cat (opt (.alt (lit "RSA ") (.alt (lit "EC ") (.alt (lit "DSA ") (lit "OPENSSH ")))))
      (lit "PRIVATE KEY-----"))

/-- The nine named patterns the detector is constructed with
(`NewIDORDetector`, pkg/detector/idor.go lines 36-46).  Note the ninth entry
`password`, which the specification's list of eight does not have. -/
def piiPatterns : List (String × Regex) :=
  [("email", emailRegex), ("phone_us", phoneUsRegex), ("phone_intl", phoneIntlRegex),
   ("ssn", ssnRegex), ("credit_card", creditCardRegex), ("api_key", apiKeyRegex),
   ("jwt", jwtRegex), ("password", passwordRegex), ("private_key", privateKeyRegex)]

/-- The eight patterns the specification lists (section 4.4), stated from the
spec's words for comparison with `piiPatterns`. -/
def specPiiPatterns : List (String × Regex) :=
  [("email", emailRegex), ("phone_us", phoneUsRegex), ("phone_intl", phoneIntlRegex),
   ("ssn", ssnRegex), ("credit_card", creditCardRegex), ("api_key", apiKeyRegex),
   ("jwt", jwtRegex), ("private_key", privateKeyRegex)]

/-! ## IDORDetector (pkg/detector/idor.go) -/

/-- The detector state: the two captured baselines (a `nil` comparator is
`none`), the similarity threshold and the PII toggle. -/
structure IDORDetector where
  validBaseline : Option Response
  invalidBaseline : Option Response
  threshold : ℚ
  checkPII : Bool

/-- `containsPII`: does any of the nine configured patterns match the body? -/
def containsPII (body : List Char) : Bool :=
  piiPatterns.any (fun p => containsMatch p.2 body)

/-- Names of the patterns that match, abstracting `GetPIIMatches` (which maps
each matching pattern name to its matched substrings; the detector only ever
consults whether that map is empty, which equals this list being empty). -/
def piiMatchNames (body : List Char) : List String :=
  (piiPatterns.filter (fun p => containsMatch p.2 body)).map Prod.fst

/-- Heuristic 1 of `Detect`: a 2xx response while the invalid baseline was
403, 401 or 404. -/
def statusBypass (d : IDORDetector) (r : Response) : Bool :=
  decide (200 ≤ r.status ∧ r.status < 300) &&
    (match d.invalidBaseline with
     | some ib => decide (ib.status = 403 ∨ ib.status = 401 ∨ ib.status = 404)
     | none => false)

/-- Heuristic 2 of `Detect`: similarity to the valid baseline below the
threshold on a 2xx response, guarded by body length over 100 and over half
the baseline length (Go integer division). -/
def contentDivergence (d : IDORDetector) (r : Response) : Bool :=
  match d.validBaseline with
  | some vb =>
    decide ((Compare vb r).bodySimilarity < d.threshold) &&
      decide (200 ≤ r.status ∧ r.status < 300) &&
      (decide (100 < r.body.length) && decide (vb.body.length / 2 < r.body.length))
  | none => false

/-- Heuristic 3 of `Detect`: the PII check. -/
def piiHeuristic (d : IDORDetector) (r : Response) : Bool :=
  d.checkPII && containsPII r.body

/-- `IDORDetector.Detect` (pkg/detector/idor.go lines 52-96): a nil response
is not vulnerable, else the three heuristics fire in order. -/
def Detect (d : IDORDetector) (resp : Option Response) : Bool :=
  match resp with
  | none => false
  | some r =>
    if statusBypass d r then true
    else if contentDivergence d r then true
    else piiHeuristic d r

structure DetectionResult where
  isVulnerable : Bool
  reasons : List String
  piiFound : List String
  statusCode : Int
  contentLen : Nat
  similarity : ℚ

/-- Status stage of `DetectWithEvidence`: unlike `Detect`, it only treats
invalid baselines 403 and 401 as a bypass — 404 is absent. -/
def dweStatusCond (d : IDORDetector) (r : Response) : Bool :=
  decide (200 ≤ r.status ∧ r.status < 300) &&
    (match d.invalidBaseline with
     | some ib => decide (ib.status = 403 ∨ ib.status = 401)
     | none => false)

def dweStatusStage (d : IDORDetector) (r : Response) (res : DetectionResult) :
    DetectionResult :=
  if dweStatusCond d r then
    { res with isVulnerable := true,
               reasons := res.reasons ++ ["Status code bypass: expected 403/401, got 200"] }
  else res

/-- Similarity condition of `DetectWithEvidence`: unlike `Detect`, there are
no body-size guards. -/
def dweSimCond (d : IDORDetector) (r : Response) : Bool :=
  match d.validBaseline with
  | some vb =>
    decide ((Compare vb r).bodySimilarity < d.threshold) &&
      decide (200 ≤ r.status ∧ r.status < 300)
  | none => false

def dweSimStage (d : IDORDetector) (r : Response) (res : DetectionResult) :
    DetectionResult :=
  match d.validBaseline with
  | some vb =>
    let res1 := { res with similarity := (Compare vb r).bodySimilarity }
    if decide ((Compare vb r).bodySimilarity < d.threshold) &&
        decide (200 ≤ r.status ∧ r.status < 300) then
      { res1 with isVulnerable := true,
                  reasons := res1.reasons ++ ["Content significantly different from baseline"] }
    else res1
  | none => res

def dwePiiStage (d : IDORDetector) (r : Response) (res : DetectionResult) :
    DetectionResult :=
  if d.checkPII then
    let pii := piiMatchNames r.body
    if 0 < pii.length then
      { res with isVulnerable := true, piiFound := pii,
                 reasons := res.reasons ++ ["PII detected in response"] }
    else res
  else res

/-- `IDORDetector.DetectWithEvidence` (pkg/detector/idor.go lines 127-169):
the result record is built up by the three stages in source order. -/
def DetectWithEvidence (d : IDORDetector) (r : Response) : DetectionResult :=
  dwePiiStage d r (dweSimStage d r (dweStatusStage d r
    { isVulnerable := false, reasons := [], piiFound := [],
      statusCode := r.status, contentLen := r.body.length, similarity := 0 }))

/-! ## Reporter severity (IdorPlus/pkg/reporter/reporter.go) -/

/-- The fields of a `FuzzResult` that `determineSeverity` consults. -/
structure FuzzResult where
  statusCode : Int
  contentLen : Int
  isVulnerable : Bool
deriving DecidableEq, Repr

/-- `determineSeverity` (IdorPlus/pkg/reporter/reporter.go lines 169-181):
HIGH on a status of exactly 200, else MEDIUM when the body exceeds 100
bytes, else LOW.  It never consults a baseline or PII and never yields
CRITICAL. -/
def determineSeverity (result : FuzzResult) : String :=
  if result.statusCode = 200 then "HIGH"
  else if 100 < result.contentLen then "MEDIUM"
  else "LOW"

/-! ## Report file modes (C5) -/

/-- Permission bits `Reporter.GenerateReport` in pkg/reporter passes to
`os.WriteFile` for the JSON report. -/
def generateReportFileMode : Nat := 0o644

/-- Permission bits `utils.WriteFile` (IdorPlus/pkg/utils/file.go) passes to
`os.WriteFile`; both report formats of the IdorPlus reporter write through
it. -/
def utilsWriteFileMode : Nat := 0o644

/-- The permission bits the repository's own tests
(pkg/reporter/reporter_test.go, both report formats) require of the
generated report file, and that the spec mandates. -/
def requiredReportFileMode : Nat := 0o600

/-! ## FuzzEngine submission (the Go `select` in `Submit`, pkg/fuzzer) -/

/-- A fuzz job as submitted to the engine. -/
structure FuzzJob where
  id : Int
  url : String
  method : String
  payload : String
  session : String
deriving DecidableEq, Repr

/-- The engine state `Submit` can observe: whether the context has been
cancelled and the bounded job queue with its capacity. -/
structure EngineState where
  cancelled : Bool
  queue : List FuzzJob
  capacity : Nat
deriving DecidableEq, Repr

/-- Job-queue capacity chosen by `NewFuzzEngine`: `workers * 10`, raised to
100 when smaller. -/
def queueSize (workers : Int) : Int :=
  if workers * 10 < 100 then 100 else workers * 10

/-- One execution of `FuzzEngine.Submit` as a transition relation.  The Go
`select` chooses uniformly among its *ready* cases: the `ctx.Done` case is
ready exactly when cancellation has fired, and the send case is ready exactly
when the queue has free capacity.  When both are ready either outcome can
occur; when neither is, `Submit` blocks (no transition). -/
inductive SubmitStep : EngineState → FuzzJob → Bool × EngineState → Prop
  | ctxDone {s : EngineState} {j : FuzzJob} (h : s.cancelled = true) :
      SubmitStep s j (false, s)
  | enqueue {s : EngineState} {j : FuzzJob} (h : s.queue.length < s.capacity) :
      SubmitStep s j (true, { s with queue := s.queue ++ [j] })

/-! ## AuthMatrixTester (IdorPlus/pkg/detector/auth_matrix.go) -/

/-- Result of one probe of the auth matrix. -/
structure SessionResult where
  sessionName : String
  statusCode : Int
  contentLen : Nat
  hasAccess : Bool
deriving DecidableEq, Repr

/-- The first loop of `analyzeMatrix`: the first entry whose key is not
`no_session` is taken as the owner.  (The Go map iteration order is
arbitrary; the embedding works over an explicit iteration order.) -/
def findOwner : List (String × SessionResult) → Option (String × SessionResult)
  | [] => none
  | (name, r) :: rest =>
    if name = "no_session" then findOwner rest else some (name, r)

/-- The second loop of `analyzeMatrix`.  The Go float comparison
`lenDiff/ownerLen < 0.1` is rendered exactly as `10 * lenDiff < ownerLen`;
for `ownerLen = 0` the Go division yields `+Inf` (or is short-circuited
away), never below 0.1, and the rendering agrees. -/
def analyzeLoop (ownerName : String) (ownerR : SessionResult) :
    List (String × SessionResult) → Bool × String
  | [] => (false, "")
  | (name, r) :: rest =>
    if name = ownerName then analyzeLoop ownerName ownerR rest
    else if ownerR.hasAccess && r.hasAccess then
      if name = "no_session" then
        (true, "Unauthenticated access to protected resource")
      else
        let lenDiff := ((ownerR.contentLen : Int) - (r.contentLen : Int)).natAbs
        if lenDiff < 50 ∨ 10 * lenDiff < ownerR.contentLen then
          (true, "Session '" ++ name ++ "' can access '" ++ ownerName ++ "' resource")
        else analyzeLoop ownerName ownerR rest
    else analyzeLoop ownerName ownerR rest

/-- `analyzeMatrix` (IdorPlus/pkg/detector/auth_matrix.go lines 189-227). -/
def analyzeMatrix (results : List (String × SessionResult)) : Bool × String :=
  match findOwner results with
  | none => (false, "")
  | some (ownerName, ownerR) => analyzeLoop ownerName ownerR results

/-! ## Stats (the `fuzzer` Stats file) and processJob counter effects -/

/-- Wrap-around of Go's `atomic.AddInt64` rendered on `Int`. -/
def wrap64 (x : Int) : Int := (x + 2 ^ 63) % 2 ^ 64 - 2 ^ 63

/-- The four counters of `Stats` (int64, atomically incremented). -/
structure Stats where
  totalRequests : Int
  successCount : Int
  failedCount : Int
  vulnCount : Int
deriving DecidableEq, Repr

def incrementTotal (s : Stats) : Stats :=
  { s with totalRequests := wrap64 (s.totalRequests + 1) }

def incrementSuccess (s : Stats) : Stats :=
  { s with successCount := wrap64 (s.successCount + 1) }

def incrementFailed (s : Stats) : Stats :=
  { s with failedCount := wrap64 (s.failedCount + 1) }

def incrementVuln (s : Stats) : Stats :=
  { s with vulnCount := wrap64 (s.vulnCount + 1) }

/-- Counter state of a fresh engine (`NewStats` zero-initialises). -/
def stats0 : Stats := ⟨0, 0, 0, 0⟩

/-- How one `processJob` run can end: cancelled before dispatch (no counters
touched), a final transport error, or an HTTP response, possibly judged
vulnerable. -/
inductive JobOutcome where
  | cancelled
  | failed
  | success (vuln : Bool)
deriving DecidableEq, Repr

/-- Counter effect of one `processJob` run (pkg/fuzzer engine, lines
224-336): the cancelled path returns early without touching the counters;
the error paths increment total then failed; the success path increments
total then success, and vuln when the detector flags the response. -/
def processJobStats : JobOutcome → Stats → Stats
  | .cancelled, s => s
  | .failed, s => incrementFailed (incrementTotal s)
  | .success vuln, s =>
    let s1 := incrementSuccess (incrementTotal s)
    if vuln then incrementVuln s1 else s1

/-- Counter state after a sequence of `processJob` completions. -/
def runTrace : List JobOutcome → Stats → Stats
  | [], s => s
  | o :: rest, s => runTrace rest (processJobStats o s)

/-- Component-wise comparison of the four counters. -/
def countersLE (a b : Stats) : Prop :=
  a.totalRequests ≤ b.totalRequests ∧ a.successCount ≤ b.successCount ∧
    a.failedCount ≤ b.failedCount ∧ a.vulnCount ≤ b.vulnCount

/-- Number of jobs among the outcomes that touch the total counter (every
non-cancelled completion). -/
def countTotal : List JobOutcome → Nat
  | [] => 0
  | .cancelled :: t => countTotal t
  | .failed :: t => countTotal t + 1
  | .success _ :: t => countTotal t + 1

def countSuccess : List JobOutcome → Nat
  | [] => 0
  | .success _ :: t => countSuccess t + 1
  | .cancelled :: t => countSuccess t
  | .failed :: t => countSuccess t

def countFailed : List JobOutcome → Nat
  | [] => 0
  | .failed :: t => countFailed t + 1
  | .cancelled :: t => countFailed t
  | .success _ :: t => countFailed t

def countVuln : List JobOutcome → Nat
  | [] => 0
  | .success true :: t => countVuln t + 1
  | .success false :: t => countVuln t
  | .cancelled :: t => countVuln t
  | .failed :: t => countVuln t

/-! ## Concrete instances used by the counterexamples and witnesses -/

/-- A valid baseline with a ten-byte body. -/
def c2Baseline : Response := ⟨200, List.replicate 10 'a'⟩

/-- A response three times the baseline size. -/
def c2Other : Response := ⟨200, List.replicate 30 'a'⟩

/-- Detector with no valid baseline, an invalid baseline of status 404 and
the PII check off. -/
def c3Detector : IDORDetector :=
  { validBaseline := none, invalidBaseline := some ⟨404, []⟩,
    threshold := 4/5, checkPII := false }

/-- An empty-bodied 200 response. -/
def c3Response : Response := ⟨200, []⟩

/-- Detector for the witness of the agreement theorem: valid baseline of
length 10, invalid baseline 403, PII on. -/
def c3WDetector : IDORDetector :=
  { validBaseline := some ⟨200, List.replicate 10 'b'⟩,
    invalidBaseline := some ⟨403, []⟩, threshold := 4/5, checkPII := true }

/-- A large 200 response satisfying both size guards. -/
def c3WResponse : Response := ⟨200, List.replicate 150 'a'⟩

/-- A 200-status fuzz result under the claim's CRITICAL conditions. -/
def c4Result : FuzzResult := ⟨200, 500, true⟩

/-- A non-200 fuzz result with a small body. -/
def c4WResult : FuzzResult := ⟨404, 50, false⟩

/-- Engine state after cancellation with an empty 100-slot queue. -/
def c6State : EngineState := ⟨true, [], 100⟩

def c6Job : FuzzJob := ⟨0, "http://x/api/u/1", "GET", "1", "attacker"⟩

/-- Owner probe that was denied (403). -/
def c7OwnerResult : SessionResult := ⟨"user_a", 403, 100, false⟩

/-- Anonymous probe that was granted access. -/
def c7AnonResult : SessionResult := ⟨"no_session", 200, 100, true⟩

/-- Matrix where only the anonymous probe got in. -/
def c7Results : List (String × SessionResult) :=
  [("user_a", c7OwnerResult), ("no_session", c7AnonResult)]

/-- Matrix where the owner and the anonymous probe both got in. -/
def c7WResults : List (String × SessionResult) :=
  [("user_a", ⟨"user_a", 200, 500, true⟩), ("no_session", ⟨"no_session", 200, 480, true⟩)]

def c8Trace1 : List JobOutcome := [.success true]

def c8Trace2 : List JobOutcome := [.failed, .cancelled]

/-- A body only the ninth (`password`) pattern matches. -/
def c9Body : List Char := "pwd: hunter".toList

/-- Detector with no baselines and the PII check on. -/
def c9Detector : IDORDetector :=
  { validBaseline := none, invalidBaseline := none, threshold := 4/5, checkPII := true }

def c9Response : Response := ⟨200, c9Body⟩

/-! # Theorems -/

/-! ## C1 — identifier classification order -/

/-- C1 counterexample: the claim says a 32-hex dashless string such as
`5d41402abc4b2a76b9719d911017c592` is classified md5 because numeric and md5
precede uuid.  In the source, `uuid.Parse` runs first and accepts exactly
such strings, so `DetectType` returns uuid, not md5. -/
theorem detectType_md5_example_is_uuid :
    DetectType "5d41402abc4b2a76b9719d911017c592".toList = IDType.uuid ∧
      IDType.uuid ≠ IDType.md5 := by
  constructor
  · rfl
  · decide

/-- C1 (amended): `DetectType` checks uuid first (then numeric, md5, sha1,
base64, with the first match winning), and `uuid.Parse` accepts any
32-character hex string, so every string of exactly 32 hex characters with no
dash is classified uuid, never md5. -/
theorem detectType_hex32_is_uuid (s : List Char) (h32 : s.length = 32)
    (hhex : s.all isHexCh = true) : DetectType s = IDType.uuid := by
  have huuid : uuidParseOk s = true := by
    simp [uuidParseOk, h32, hhex]
  simp [DetectType, huuid]

set_option maxRecDepth 4000 in
/-- C1 witness: the amended theorem applied to a concrete 32-hex string. -/
theorem detectType_hex32_is_uuid_witness :
    ("ABCDEF0123456789abcdef0123456789".toList.length = 32 ∧
      "ABCDEF0123456789abcdef0123456789".toList.all isHexCh = true) ∧
    DetectType "ABCDEF0123456789abcdef0123456789".toList = IDType.uuid :=
  ⟨⟨rfl, rfl⟩, detectType_hex32_is_uuid _ rfl rfl⟩

/-! ## C2 — response similarity -/

/-- C2 counterexample: with a 10-byte baseline and a 30-byte response the
source computes similarity `1 - 20/10 = -1`, outside `[0,1]`, while the
claimed clamped formula gives `1 - min 1 (20/10) = 0`. -/
theorem compare_similarity_not_clamped :
    (Compare c2Baseline c2Other).bodySimilarity = -1 ∧
    specSimilarity c2Baseline c2Other = 0 ∧
    ¬(0 ≤ (Compare c2Baseline c2Other).bodySimilarity) := by
  refine ⟨?_, ?_, ?_⟩ <;>
    norm_num [Compare, specSimilarity, c2Baseline, c2Other]

/-- C2 (amended): when the baseline body is non-empty the similarity is the
unclamped `1 - lengthDiff / baselineLen` — at most 1, but negative exactly
when the length difference exceeds the baseline length; with an empty
baseline it is 1 against an empty body and 0 against a non-empty one. -/
theorem compare_similarity_characterization (b r : Response) :
    (Compare b r).bodySimilarity ≤ 1
    ∧ (0 < b.body.length →
        ((Compare b r).bodySimilarity
          = 1 - ((Compare b r).lengthDiff : ℚ) / (b.body.length : ℚ)
        ∧ ((Compare b r).bodySimilarity < 0 ↔ b.body.length < (Compare b r).lengthDiff)))
    ∧ (b.body.length = 0 → r.body.length = 0 → (Compare b r).bodySimilarity = 1)
    ∧ (b.body.length = 0 → r.body.length ≠ 0 → (Compare b r).bodySimilarity = 0) := by
  by_cases hb : 0 < b.body.length
  · have hbq : (0 : ℚ) < (b.body.length : ℚ) := by exact_mod_cast hb
    refine ⟨?_, fun _ => ⟨?_, ?_⟩, fun h0 => absurd h0 (by omega), fun h0 => absurd h0 (by omega)⟩
    · simp only [Compare, hb, if_true]
      have hnn : (0 : ℚ) ≤
          (((b.body.length : Int) - (r.body.length : Int)).natAbs : ℚ) / (b.body.length : ℚ) :=
        div_nonneg (by positivity) (le_of_lt hbq)
      linarith
    · simp [Compare, hb]
    · simp only [Compare, hb, if_true]
      rw [sub_neg, lt_div_iff₀ hbq, one_mul]
      exact_mod_cast Iff.rfl
  · have hb0 : b.body.length = 0 := by omega
    refine ⟨?_, fun h => absurd h hb, fun _ h0 => ?_, fun _ h0 => ?_⟩
    · by_cases hr : r.body.length = 0 <;> simp [Compare, hb0, hr]
    · simp [Compare, hb0, h0]
    · simp [Compare, hb0, h0]

/-- C2 witness: the characterization applied to the concrete baseline pair of
the counterexample. -/
theorem compare_similarity_characterization_witness :
    (Compare c2Baseline c2Other).bodySimilarity ≤ 1
    ∧ (0 < c2Baseline.body.length →
        ((Compare c2Baseline c2Other).bodySimilarity
          = 1 - ((Compare c2Baseline c2Other).lengthDiff : ℚ) / (c2Baseline.body.length : ℚ)
        ∧ ((Compare c2Baseline c2Other).bodySimilarity < 0 ↔
            c2Baseline.body.length < (Compare c2Baseline c2Other).lengthDiff)))
    ∧ (c2Baseline.body.length = 0 → c2Other.body.length = 0 →
        (Compare c2Baseline c2Other).bodySimilarity = 1)
    ∧ (c2Baseline.body.length = 0 → c2Other.body.length ≠ 0 →
        (Compare c2Baseline c2Other).bodySimilarity = 0) :=
  compare_similarity_characterization c2Baseline c2Other

/-! ## C3 — Detect versus DetectWithEvidence -/

/-- C3 counterexample: with no valid baseline, an invalid baseline of status
404 and PII off, a 200 response is flagged by `Detect` (whose status-gap set
is 401/403/404) but not by `DetectWithEvidence` (whose set is only 401/403),
so the two verdicts differ. -/
theorem detectWithEvidence_misses_404_bypass :
    Detect c3Detector (some c3Response) = true ∧
    (DetectWithEvidence c3Detector c3Response).isVulnerable = false :=
  ⟨rfl, rfl⟩

/-- Stage lemma: the status stage sets the verdict exactly when its 401/403
status-gap condition holds. -/
theorem dweStatusStage_isVulnerable (d : IDORDetector) (r : Response) (res : DetectionResult) :
    (dweStatusStage d r res).isVulnerable = (res.isVulnerable || dweStatusCond d r) := by
  unfold dweStatusStage
  by_cases h : dweStatusCond d r = true
  · simp [h]
  · have hf : dweStatusCond d r = false := by revert h; cases dweStatusCond d r <;> simp
    simp [hf]

/-- Stage lemma: the similarity stage sets the verdict exactly when its
unguarded divergence condition holds. -/
theorem dweSimStage_isVulnerable (d : IDORDetector) (r : Response) (res : DetectionResult) :
    (dweSimStage d r res).isVulnerable = (res.isVulnerable || dweSimCond d r) := by
  unfold dweSimStage dweSimCond
  cases hv : d.validBaseline with
  | none => simp
  | some vb =>
    by_cases hp : (Compare vb r).bodySimilarity < d.threshold ∧ 200 ≤ r.status ∧ r.status < 300
    · simp [hp]
    · simp only [decide_eq_true_eq]
      rw [if_neg ?hneg]
      · push_neg at hp
        by_cases hs : (Compare vb r).bodySimilarity < d.threshold
        · have hrest := hp hs
          by_cases h2 : 200 ≤ r.status
          · have hlt := hrest h2
            simp [hs, h2, hlt]
          · simp [hs, h2]
        · simp [hs]
      case hneg =>
        intro hcon
        exact hp ⟨of_decide_eq_true (Bool.and_eq_true _ _ |>.mp hcon).1,
          of_decide_eq_true (Bool.and_eq_true _ _ |>.mp hcon).2⟩

/-- The non-emptiness of the recorded PII match names coincides with
`containsPII`. -/
theorem piiMatchNames_length_pos (body : List Char) :
    (0 < (piiMatchNames body).length) ↔ containsPII body = true := by
  simp [piiMatchNames, containsPII, List.length_pos, List.filter_eq_nil_iff, List.any_eq_true]

/-- Stage lemma: the PII stage sets the verdict exactly when the PII
heuristic fires. -/
theorem dwePiiStage_isVulnerable (d : IDORDetector) (r : Response) (res : DetectionResult) :
    (dwePiiStage d r res).isVulnerable = (res.isVulnerable || piiHeuristic d r) := by
  unfold dwePiiStage piiHeuristic
  by_cases hc : d.checkPII = true
  · by_cases hm : containsPII r.body = true
    · have hpos : 0 < (piiMatchNames r.body).length := (piiMatchNames_length_pos r.body).mpr hm
      simp [hc, hm, hpos]
    · have hpos : ¬(0 < (piiMatchNames r.body).length) := fun h =>
        hm ((piiMatchNames_length_pos r.body).mp h)
      have hm' : containsPII r.body = false := by
        revert hm; cases containsPII r.body <;> simp
      simp [hc, hm', hpos]
  · have hc' : d.checkPII = false := by
      revert hc; cases d.checkPII <;> simp
    simp [hc']

/-- `Detect` is the disjunction of its three heuristics. -/
theorem detect_eq_or (d : IDORDetector) (r : Response) :
    Detect d (some r) =
      (statusBypass d r || (contentDivergence d r || piiHeuristic d r)) := by
  unfold Detect
  cases h1 : statusBypass d r <;> cases h2 : contentDivergence d r <;> simp [h1, h2]

/-- C3 (amended): `DetectWithEvidence(r).IsVulnerable` agrees with `Detect(r)`
only under extra conditions — the invalid baseline is not 404 (that status is
missing from `DetectWithEvidence`'s status-gap set) and the response passes
the size guards (which `DetectWithEvidence` omits); in general the verdicts
differ. -/
theorem detectWithEvidence_agrees_under_guards (d : IDORDetector) (r : Response)
    (hinv : ∀ ib, d.invalidBaseline = some ib → ib.status ≠ 404)
    (hguard : ∀ vb, d.validBaseline = some vb →
        100 < r.body.length ∧ vb.body.length / 2 < r.body.length) :
    (DetectWithEvidence d r).isVulnerable = Detect d (some r) := by
  have h1 : dweStatusCond d r = statusBypass d r := by
    unfold dweStatusCond statusBypass
    cases hib : d.invalidBaseline with
    | none => rfl
    | some ib =>
      have h404 := hinv ib hib
      have heq : decide (ib.status = 403 ∨ ib.status = 401)
          = decide (ib.status = 403 ∨ ib.status = 401 ∨ ib.status = 404) := by
        apply decide_eq_decide.mpr
        constructor
        · rintro (h | h) <;> tauto
        · rintro (h | h | h) <;> tauto
      simp only [heq]
  have h2 : dweSimCond d r = contentDivergence d r := by
    unfold dweSimCond contentDivergence
    cases hvb : d.validBaseline with
    | none => rfl
    | some vb =>
      obtain ⟨g1, g2⟩ := hguard vb hvb
      simp [decide_eq_true g1, decide_eq_true g2]
  rw [DetectWithEvidence, dwePiiStage_isVulnerable, dweSimStage_isVulnerable,
    dweStatusStage_isVulnerable, detect_eq_or, h1, h2]
  simp [Bool.or_assoc]

/-- C3 witness: the agreement theorem applied to a 403 invalid baseline and a
response passing both size guards. -/
theorem detectWithEvidence_agrees_under_guards_witness :
    (∀ ib, c3WDetector.invalidBaseline = some ib → ib.status ≠ 404) ∧
    (∀ vb, c3WDetector.validBaseline = some vb →
        100 < c3WResponse.body.length ∧ vb.body.length / 2 < c3WResponse.body.length) ∧
    (DetectWithEvidence c3WDetector c3WResponse).isVulnerable
      = Detect c3WDetector (some c3WResponse) := by
  have hinv : ∀ ib, c3WDetector.invalidBaseline = some ib → ib.status ≠ 404 := by
    intro ib hib
    simp only [c3WDetector] at hib
    cases hib
    decide
  have hguard : ∀ vb, c3WDetector.validBaseline = some vb →
      100 < c3WResponse.body.length ∧ vb.body.length / 2 < c3WResponse.body.length := by
    intro vb hvb
    simp only [c3WDetector] at hvb
    cases hvb
    exact ⟨by norm_num [c3WResponse], by norm_num [c3WResponse]⟩
  exact ⟨hinv, hguard,
    detectWithEvidence_agrees_under_guards c3WDetector c3WResponse hinv hguard⟩

/-! ## C4 — finding severity -/

/-- C4 counterexample: a 200 response under the claim's CRITICAL conditions
(invalid baseline 401/403 and PII present) gets severity HIGH, because
`determineSeverity` consults neither the invalid baseline nor PII and never
produces CRITICAL. -/
theorem determineSeverity_no_critical :
    determineSeverity c4Result = "HIGH" ∧ determineSeverity c4Result ≠ "CRITICAL" := by
  constructor
  · rfl
  · decide

/-- C4 (amended): severity is HIGH exactly on a status of 200, MEDIUM on any
other status with a body over 100 bytes, LOW otherwise — independent of the
invalid baseline and PII, and never CRITICAL. -/
theorem determineSeverity_characterization (res : FuzzResult) :
    determineSeverity res ≠ "CRITICAL"
    ∧ (res.statusCode = 200 → determineSeverity res = "HIGH")
    ∧ (res.statusCode ≠ 200 → 100 < res.contentLen → determineSeverity res = "MEDIUM")
    ∧ (res.statusCode ≠ 200 → res.contentLen ≤ 100 → determineSeverity res = "LOW") := by
  by_cases h200 : res.statusCode = 200
  · refine ⟨?_, fun _ => ?_, fun h _ => absurd h200 h, fun h _ => absurd h200 h⟩ <;>
      simp [determineSeverity, h200]
  · by_cases hlen : 100 < res.contentLen
    · refine ⟨?_, fun h => absurd h h200, fun _ _ => ?_, fun _ h => absurd hlen (by omega)⟩ <;>
        simp [determineSeverity, h200, hlen]
    · refine ⟨?_, fun h => absurd h h200, fun _ h => absurd h hlen, fun _ _ => ?_⟩ <;>
        simp [determineSeverity, h200, hlen]

/-- C4 witness: the characterization applied to a 404 result with a small
body. -/
theorem determineSeverity_characterization_witness :
    c4WResult.statusCode ≠ 200 ∧ c4WResult.contentLen ≤ 100 ∧
    determineSeverity c4WResult = "LOW" :=
  ⟨by decide, by decide,
   (determineSeverity_characterization c4WResult).2.2.2 (by decide) (by decide)⟩

/-! ## C5 — report file permissions -/

/-- C5 (code bug): the spec, and the repository's own reporter tests, require
report files to be created with mode 0600, but both write paths pass 0644 to
`os.WriteFile`. -/
theorem report_file_mode_is_0644_not_0600 :
    generateReportFileMode = 0o644 ∧ utilsWriteFileMode = 0o644 ∧
    generateReportFileMode ≠ requiredReportFileMode ∧
    utilsWriteFileMode ≠ requiredReportFileMode := by
  decide

/-! ## C6 — Submit under cancellation -/

/-- C6 counterexample: from a cancelled state with queue capacity available,
the Go `select` may pick the send case, so `Submit` can enqueue the job and
return true — the claim that it always returns false with the queue unchanged
is refuted. -/
theorem submit_after_cancel_can_enqueue :
    c6State.cancelled = true ∧
    SubmitStep c6State c6Job (true, { c6State with queue := c6State.queue ++ [c6Job] }) ∧
    ¬(∀ (b : Bool) (s' : EngineState),
        SubmitStep c6State c6Job (b, s') → b = false ∧ s' = c6State) := by
  refine ⟨rfl, SubmitStep.enqueue (by decide), fun h => ?_⟩
  have hres := h true _ (SubmitStep.enqueue (by decide))
  exact absurd hres.1 (by decide)

/-- C6 (amended): without cancellation `Submit` can only enqueue (blocking
until space is available); after cancellation it either returns false leaving
the queue unchanged or — only when the queue has free capacity —
nondeterministically still enqueues and returns true; on a full queue after
cancellation it always returns false with the queue unchanged. -/
theorem submitStep_characterization (s : EngineState) (j : FuzzJob) (b : Bool)
    (s' : EngineState) (h : SubmitStep s j (b, s')) :
    (s.cancelled = false →
        b = true ∧ s' = { s with queue := s.queue ++ [j] } ∧ s.queue.length < s.capacity)
    ∧ (s.cancelled = true →
        (b = false ∧ s' = s) ∨
        (s.queue.length < s.capacity ∧ b = true ∧ s' = { s with queue := s.queue ++ [j] }))
    ∧ (s.capacity ≤ s.queue.length → b = false ∧ s' = s) := by
  cases h with
  | ctxDone hc =>
    refine ⟨fun hf => ?_, fun _ => Or.inl ⟨rfl, rfl⟩, fun _ => ⟨rfl, rfl⟩⟩
    rw [hc] at hf
    cases hf
  | enqueue he =>
    refine ⟨fun _ => ⟨rfl, rfl, he⟩, fun _ => Or.inr ⟨he, rfl, rfl⟩, fun hfull => ?_⟩
    omega

/-- C6 witness: the characterization applied to the ctx-done transition from
the cancelled state. -/
theorem submitStep_characterization_witness :
    SubmitStep c6State c6Job (false, c6State) ∧
    ((c6State.cancelled = false →
        false = true ∧ c6State = { c6State with queue := c6State.queue ++ [c6Job] } ∧
          c6State.queue.length < c6State.capacity)
    ∧ (c6State.cancelled = true →
        (false = false ∧ c6State = c6State) ∨
        (c6State.queue.length < c6State.capacity ∧ false = true ∧
          c6State = { c6State with queue := c6State.queue ++ [c6Job] }))
    ∧ (c6State.capacity ≤ c6State.queue.length → false = false ∧ c6State = c6State)) :=
  ⟨SubmitStep.ctxDone rfl,
   submitStep_characterization c6State c6Job false c6State (SubmitStep.ctxDone rfl)⟩

/-! ## C7 — auth matrix and the anonymous probe -/

/-- C7 counterexample: the anonymous probe has access yet `analyzeMatrix`
reports not vulnerable, because the owner session itself was denied and every
branch of the loop requires the owner to have access. -/
theorem analyzeMatrix_ignores_anon_without_owner_access :
    c7AnonResult.hasAccess = true ∧ ("no_session", c7AnonResult) ∈ c7Results ∧
    analyzeMatrix c7Results = (false, "") := by
  refine ⟨rfl, ?_, rfl⟩
  simp [c7Results]

/-- `findOwner` never selects the anonymous entry. -/
theorem findOwner_not_anon (l : List (String × SessionResult)) (p : String × SessionResult)
    (h : findOwner l = some p) : p.1 ≠ "no_session" := by
  induction l with
  | nil => simp [findOwner] at h
  | cons hd tl ih =>
    obtain ⟨name, r⟩ := hd
    rw [findOwner] at h
    split at h
    · exact ih h
    · cases h
      simpa using by assumption

/-- If the owner has access and an accessible anonymous entry is present, the
analysis loop reports vulnerable. -/
theorem analyzeLoop_fires (ownerName : String) (ownerR anonR : SessionResult)
    (l : List (String × SessionResult))
    (hne : ownerName ≠ "no_session")
    (hoa : ownerR.hasAccess = true) (haa : anonR.hasAccess = true)
    (hmem : ("no_session", anonR) ∈ l) :
    (analyzeLoop ownerName ownerR l).1 = true := by
  induction l with
  | nil => simp at hmem
  | cons hd tl ih =>
    obtain ⟨name, r⟩ := hd
    rw [analyzeLoop]
    rcases List.mem_cons.mp hmem with heq | hmem'
    · cases heq
      rw [if_neg (by simpa using Ne.symm hne)]
      simp [hoa, haa]
    · by_cases h1 : name = ownerName
      · rw [if_pos h1]
        exact ih hmem'
      · rw [if_neg h1]
        by_cases h2 : (ownerR.hasAccess && r.hasAccess) = true
        · rw [if_pos h2]
          by_cases h3 : name = "no_session"
          · rw [if_pos h3]
          · rw [if_neg h3]
            dsimp only
            split
            · rfl
            · exact ih hmem'
        · rw [if_neg h2]
          exact ih hmem'

/-- C7 (amended): if the anonymous probe has access *and* the owner session
(the first session in iteration order) also has access, `analyzeMatrix`
reports the endpoint vulnerable (with the unauthenticated-access reason when
no overlapping session precedes the anonymous entry); when the owner probe
was denied, anonymous access alone is not flagged. -/
theorem analyzeMatrix_flags_accessible_anon (results : List (String × SessionResult))
    (ownerName : String) (ownerR anonR : SessionResult)
    (hOwner : findOwner results = some (ownerName, ownerR))
    (hoa : ownerR.hasAccess = true)
    (hmem : ("no_session", anonR) ∈ results)
    (haa : anonR.hasAccess = true) :
    (analyzeMatrix results).1 = true := by
  unfold analyzeMatrix
  rw [hOwner]
  exact analyzeLoop_fires ownerName ownerR anonR results
    (findOwner_not_anon results _ hOwner) hoa haa hmem

/-- C7 witness: the amended theorem applied to a matrix whose owner and
anonymous probes were both granted. -/
theorem analyzeMatrix_flags_accessible_anon_witness :
    findOwner c7WResults = some ("user_a", ⟨"user_a", 200, 500, true⟩) ∧
    (⟨"user_a", 200, 500, true⟩ : SessionResult).hasAccess = true ∧
    ("no_session", (⟨"no_session", 200, 480, true⟩ : SessionResult)) ∈ c7WResults ∧
    (⟨"no_session", 200, 480, true⟩ : SessionResult).hasAccess = true ∧
    (analyzeMatrix c7WResults).1 = true := by
  have hOwner : findOwner c7WResults = some ("user_a", ⟨"user_a", 200, 500, true⟩) := rfl
  have hmem : ("no_session", (⟨"no_session", 200, 480, true⟩ : SessionResult)) ∈ c7WResults := by
    simp [c7WResults]
  exact ⟨hOwner, rfl, hmem, rfl,
    analyzeMatrix_flags_accessible_anon c7WResults "user_a" _ _ hOwner rfl hmem rfl⟩

/-! ## C8 — stats counters -/

/-- The int64 wrap is the identity inside the representable range. -/
theorem wrap64_eq_self (x : Int) (h1 : -9223372036854775808 ≤ x)
    (h2 : x < 9223372036854775808) : wrap64 x = x := by
  have e64 : (2 : Int) ^ 64 = 18446744073709551616 := by norm_num
  have e63 : (2 : Int) ^ 63 = 9223372036854775808 := by norm_num
  unfold wrap64
  rw [e64, e63]
  omega

/-- Characterization of the counters after a trace, below the int64 wrap
threshold. -/
theorem runTrace_counts (tr : List JobOutcome) : ∀ (s : Stats),
    0 ≤ s.totalRequests → 0 ≤ s.successCount → 0 ≤ s.failedCount → 0 ≤ s.vulnCount →
    s.totalRequests + tr.length < 9223372036854775808 →
    s.successCount + tr.length < 9223372036854775808 →
    s.failedCount + tr.length < 9223372036854775808 →
    s.vulnCount + tr.length < 9223372036854775808 →
    runTrace tr s = ⟨s.totalRequests + countTotal tr, s.successCount + countSuccess tr,
      s.failedCount + countFailed tr, s.vulnCount + countVuln tr⟩ := by
  induction tr with
  | nil =>
    intro s _ _ _ _ _ _ _ _
    cases s
    simp [runTrace, countTotal, countSuccess, countFailed, countVuln]
  | cons o t ih =>
    intro s hp1 hp2 hp3 hp4 hb1 hb2 hb3 hb4
    have hlc : (o :: t).length = t.length + 1 := rfl
    cases o with
    | cancelled =>
      rw [runTrace]
      have hstep : processJobStats JobOutcome.cancelled s = s := rfl
      rw [hstep, ih s hp1 hp2 hp3 hp4 (by omega) (by omega) (by omega) (by omega)]
      simp only [countTotal, countSuccess, countFailed, countVuln, Stats.mk.injEq]
      repeat' apply And.intro
      all_goals (push_cast; try ring)
    | failed =>
      rw [runTrace]
      have hstep : processJobStats JobOutcome.failed s =
          ⟨s.totalRequests + 1, s.successCount, s.failedCount + 1, s.vulnCount⟩ := by
        simp [processJobStats, incrementTotal, incrementFailed,
          wrap64_eq_self (s.totalRequests + 1) (by omega) (by omega),
          wrap64_eq_self (s.failedCount + 1) (by omega) (by omega)]
      rw [hstep, ih _ (by simp; omega) (by simp; omega) (by simp; omega) (by simp; omega)
        (by simp; omega) (by simp; omega) (by simp; omega) (by simp; omega)]
      simp only [countTotal, countSuccess, countFailed, countVuln, Stats.mk.injEq]
      repeat' apply And.intro
      all_goals (push_cast; try ring)
    | success v =>
      rw [runTrace]
      cases v with
      | false =>
        have hstep : processJobStats (JobOutcome.success false) s =
            ⟨s.totalRequests + 1, s.successCount + 1, s.failedCount, s.vulnCount⟩ := by
          simp [processJobStats, incrementTotal, incrementSuccess,
            wrap64_eq_self (s.totalRequests + 1) (by omega) (by omega),
            wrap64_eq_self (s.successCount + 1) (by omega) (by omega)]
        rw [hstep, ih _ (by simp; omega) (by simp; omega) (by simp; omega) (by simp; omega)
          (by simp; omega) (by simp; omega) (by simp; omega) (by simp; omega)]
        simp only [countTotal, countSuccess, countFailed, countVuln, Stats.mk.injEq]
        repeat' apply And.intro
        all_goals (push_cast; try ring)
      | true =>
        have hstep : processJobStats (JobOutcome.success true) s =
            ⟨s.totalRequests + 1, s.successCount + 1, s.failedCount, s.vulnCount + 1⟩ := by
          simp [processJobStats, incrementTotal, incrementSuccess, incrementVuln,
            wrap64_eq_self (s.totalRequests + 1) (by omega) (by omega),
            wrap64_eq_self (s.successCount + 1) (by omega) (by omega),
            wrap64_eq_self (s.vulnCount + 1) (by omega) (by omega)]
        rw [hstep, ih _ (by simp; omega) (by simp; omega) (by simp; omega) (by simp; omega)
          (by simp; omega) (by simp; omega) (by simp; omega) (by simp; omega)]
        simp only [countTotal, countSuccess, countFailed, countVuln, Stats.mk.injEq]
        repeat' apply And.intro
        all_goals (push_cast; try ring)

/-- Every counted completion is a success or a failure. -/
theorem countTotal_eq_success_add_failed (tr : List JobOutcome) :
    countTotal tr = countSuccess tr + countFailed tr := by
  induction tr with
  | nil => rfl
  | cons o t ih =>
    cases o with
    | cancelled => simpa [countTotal, countSuccess, countFailed] using ih
    | failed => simp [countTotal, countSuccess, countFailed, ih]; omega
    | success v => simp [countTotal, countSuccess, countFailed, ih]; omega

theorem countTotal_append (a b : List JobOutcome) :
    countTotal (a ++ b) = countTotal a + countTotal b := by
  induction a with
  | nil => simp [countTotal]
  | cons o t ih => cases o <;> simp [countTotal, ih] <;> omega

theorem countSuccess_append (a b : List JobOutcome) :
    countSuccess (a ++ b) = countSuccess a + countSuccess b := by
  induction a with
  | nil => simp [countSuccess]
  | cons o t ih => cases o <;> simp [countSuccess, ih] <;> omega

theorem countFailed_append (a b : List JobOutcome) :
    countFailed (a ++ b) = countFailed a + countFailed b := by
  induction a with
  | nil => simp [countFailed]
  | cons o t ih => cases o <;> simp [countFailed, ih] <;> omega

theorem countVuln_append (a b : List JobOutcome) :
    countVuln (a ++ b) = countVuln a + countVuln b := by
  induction a with
  | nil => simp [countVuln]
  | cons o t ih =>
    cases o with
    | cancelled => simpa [countVuln] using ih
    | failed => simpa [countVuln] using ih
    | success v => cases v <;> simp [countVuln, ih] <;> omega

/-- Counters of a fresh engine after a bounded trace are exactly the outcome
counts. -/
theorem runTrace0_counts (tr : List JobOutcome)
    (h : (tr.length : Int) < 9223372036854775808) :
    runTrace tr stats0 = ⟨countTotal tr, countSuccess tr, countFailed tr, countVuln tr⟩ := by
  have hmain := runTrace_counts tr stats0 (by simp [stats0]) (by simp [stats0])
    (by simp [stats0]) (by simp [stats0]) (by simpa [stats0] using h)
    (by simpa [stats0] using h) (by simpa [stats0] using h) (by simpa [stats0] using h)
  simpa [stats0] using hmain

/-- C8: starting from a fresh engine, over any trace of `processJob`
completions short of the int64 wrap threshold, the total counter equals the
success counter plus the failed counter, and all four counters are
monotonically non-decreasing (every prefix of the trace is dominated by the
full trace). -/
theorem stats_counters_invariant (tr1 tr2 : List JobOutcome)
    (h : (((tr1 ++ tr2).length : Int)) < 2 ^ 63) :
    ((runTrace (tr1 ++ tr2) stats0).totalRequests
        = (runTrace (tr1 ++ tr2) stats0).successCount
          + (runTrace (tr1 ++ tr2) stats0).failedCount)
    ∧ countersLE (runTrace tr1 stats0) (runTrace (tr1 ++ tr2) stats0) := by
  have e63 : (2 : Int) ^ 63 = 9223372036854775808 := by norm_num
  rw [e63] at h
  have hlen1 : ((tr1.length : Int)) < 9223372036854775808 := by
    have hle : tr1.length ≤ (tr1 ++ tr2).length := by simp
    omega
  rw [runTrace0_counts (tr1 ++ tr2) h, runTrace0_counts tr1 hlen1]
  constructor
  · dsimp only
    exact_mod_cast countTotal_eq_success_add_failed (tr1 ++ tr2)
  · unfold countersLE
    simp only [countTotal_append, countSuccess_append, countFailed_append, countVuln_append]
    refine ⟨?_, ?_, ?_, ?_⟩ <;> (push_cast; omega)

/-- C8 witness: the invariant applied to a concrete three-job trace. -/
theorem stats_counters_invariant_witness :
    (((c8Trace1 ++ c8Trace2).length : Int)) < 2 ^ 63 ∧
    (((runTrace (c8Trace1 ++ c8Trace2) stats0).totalRequests
        = (runTrace (c8Trace1 ++ c8Trace2) stats0).successCount
          + (runTrace (c8Trace1 ++ c8Trace2) stats0).failedCount)
    ∧ countersLE (runTrace c8Trace1 stats0) (runTrace (c8Trace1 ++ c8Trace2) stats0)) :=
  ⟨by norm_num [c8Trace1, c8Trace2],
   stats_counters_invariant c8Trace1 c8Trace2 (by norm_num [c8Trace1, c8Trace2])⟩

/-! ## C9 — the PII rule and its pattern set -/

/-- C9 counterexample: the body `pwd: hunter` makes `containsPII` fire even
though none of the specification's eight patterns matches it — the source
ships a ninth `password` pattern. -/
theorem containsPII_fires_beyond_spec_set :
    containsPII c9Body = true ∧
    specPiiPatterns.all (fun p => !containsMatch p.2 c9Body) = true :=
  ⟨rfl, rfl⟩

/-- C9 (amended): with the PII check enabled and the first two heuristics
silent, the detector verdict coincides with a match of at least one of the
*nine* shipped patterns — the spec's eight plus `password`. -/
theorem detect_pii_rule_iff_nine_patterns (d : IDORDetector) (r : Response)
    (hc : d.checkPII = true)
    (h1 : statusBypass d r = false) (h2 : contentDivergence d r = false) :
    Detect d (some r) = piiPatterns.any (fun p => containsMatch p.2 r.body) := by
  simp [Detect, h1, h2, piiHeuristic, hc, containsPII]

/-- C9 witness: the amended theorem applied to the password-only body. -/
theorem detect_pii_rule_iff_nine_patterns_witness :
    c9Detector.checkPII = true ∧
    statusBypass c9Detector c9Response = false ∧
    contentDivergence c9Detector c9Response = false ∧
    Detect c9Detector (some c9Response)
      = piiPatterns.any (fun p => containsMatch p.2 c9Response.body) :=
  ⟨rfl, rfl, rfl, detect_pii_rule_iff_nine_patterns c9Detector c9Response rfl rfl rfl⟩

/-! ## C10 — numeric payload generation -/

/-- C10: for every count of at least 10, the generator emits the decimal
strings 1..N at positions 0..N-1 in order, followed at positions N..N+9 by
exactly the ten boundary values in order, with nothing de-duplicated. -/
theorem numericGenerate_positions (N : Int) (hN : 10 ≤ N) :
    (∀ i : Nat, i < N.toNat →
      (NumericGenerator.Generate N)[i]? = some (toString (i + 1)))
    ∧ (NumericGenerator.Generate N).drop N.toNat = boundaryValues
    ∧ (NumericGenerator.Generate N).length = N.toNat + 10 := by
  refine ⟨?_, ?_, ?_⟩
  · intro i hi
    unfold NumericGenerator.Generate
    rw [List.getElem?_append_left (by simpa using hi), List.getElem?_map,
      List.getElem?_range hi]
    rfl
  · unfold NumericGenerator.Generate
    exact List.drop_left' (by simp)
  · simp [NumericGenerator.Generate, boundaryValues]

/-- C10 witness: the position theorem applied at N = 10. -/
theorem numericGenerate_positions_witness :
    (10 : Int) ≤ 10 ∧
    ((∀ i : Nat, i < (10 : Int).toNat →
        (NumericGenerator.Generate 10)[i]? = some (toString (i + 1)))
    ∧ (NumericGenerator.Generate 10).drop (10 : Int).toNat = boundaryValues
    ∧ (NumericGenerator.Generate 10).length = (10 : Int).toNat + 10) :=
  ⟨by norm_num, numericGenerate_positions 10 (by norm_num)⟩

end IdorPlus
